import Mathlib

/-!
Formal model of the AgriCure signup/OTP front end.

JavaScript strings are embedded as `List Char`; JS `Error` values as
`JsError` (name, message); promise rejection as `JsResult.err`.  Each
definition mirrors one function of the source: `src/services/otpService.ts`
(hardened version), `src/services/authService.ts` (part_001 version),
`src/components/OTPVerification.tsx`, `src/pages/Signup.tsx` (Signup and
Login components), and the SQL trigger `handle_new_user` of the migration
in part_003.
-/

/-- JS strings, embedded as their character lists. -/
abbrev JsString := List Char

/-- Coerce a Lean string literal to the embedding. -/
def js (s : String) : JsString := s.data

/-- JS `String.prototype.includes`: `sub` occurs contiguously in `s`. -/
def strContains (s sub : JsString) : Bool :=
  (List.range (s.length + 1)).any (fun i => sub.isPrefixOf (s.drop i))

/-- JS `String.prototype.trim` (over the common whitespace characters). -/
def jsTrim (s : JsString) : JsString :=
  ((s.dropWhile Char.isWhitespace).reverse.dropWhile Char.isWhitespace).reverse

/-- JS `str.startsWith('+')`. -/
def startsWithPlus (s : JsString) : Bool :=
  match s with
  | '+' :: _ => true
  | _ => false

/-- A JS `Error`-like value: its `name` and its `message`. -/
structure JsError where
  name : JsString
  message : JsString
deriving DecidableEq, Repr

/-- Outcome of an awaited JS promise: resolved value or thrown error. -/
inductive JsResult (α : Type) where
  | ok (a : α)
  | err (e : JsError)
deriving DecidableEq, Repr

/-- Split a string at its unique `@`, when it has exactly one
(the shape required by the email regular expression). -/
def beforeAfterAt : JsString → Option (JsString × JsString)
  | [] => none
  | '@' :: rest => if rest.contains '@' then none else some ([], rest)
  | c :: rest =>
    match beforeAfterAt rest with
    | some (pre, post) => some (c :: pre, post)
    | none => none

/-- The domain part `B+\.C+` of the email regex: a dot at a position that
leaves a nonempty local part on both of its sides. -/
def hasInnerDot (post : JsString) : Bool :=
  (List.range post.length).any
    (fun i => post.getD i ' ' == '.' && decide (1 ≤ i) && decide (i + 1 < post.length))

/-- The email test `/^[^\s@]+@[^\s@]+\.[^\s@]+$/` used by the signup form
and the login form. -/
def emailRegexTest (s : JsString) : Bool :=
  match beforeAfterAt s with
  | none => false
  | some (pre, post) =>
    !pre.isEmpty && pre.all (fun c => !c.isWhitespace) &&
      post.all (fun c => !c.isWhitespace) && hasInnerDot post

namespace RETRY_CONFIG

/-- `RETRY_CONFIG.maxRetries` of otpService.ts. -/
def maxRetries : Nat := 3

/-- `RETRY_CONFIG.retryDelay` of otpService.ts (milliseconds). -/
def retryDelay : Nat := 1000

end RETRY_CONFIG

/-- The transient-network classification of `retryNetworkRequest`
(otpService.ts lines 95-100). -/
def isNetworkError (e : JsError) : Bool :=
  strContains e.message (js "Failed to fetch") ||
  strContains e.message (js "ERR_NETWORK_CHANGED") ||
  strContains e.message (js "Network request failed") ||
  e.name == js "AuthRetryableFetchError" ||
  e.name == js "TypeError"

/-- Trace of one run of a (possibly retried) network operation: the final
result, the waits performed before each retry (milliseconds, in order), and
the provider calls that were actually dispatched. -/
structure RunLog (α : Type) where
  result : JsResult α
  delays : List Int
  sends : List JsString
deriving Repr

/-- `retryNetworkRequest` of otpService.ts: run `op`; on a thrown error that
classifies as transient and with retries remaining, wait
`retryDelay * (maxRetries - retries + 1)` and recurse with one retry fewer;
otherwise rethrow.  `op` is indexed by the attempt number so that a model
provider may behave differently across attempts; each attempt reports its
own dispatched provider calls. -/
def retryNetworkRequest (op : Nat → JsResult α × List JsString) :
    Nat → Nat → RunLog α
  | 0, idx =>
    match op idx with
    | (JsResult.ok a, s) => ⟨JsResult.ok a, [], s⟩
    | (JsResult.err e, s) => ⟨JsResult.err e, [], s⟩
  | Nat.succ r, idx =>
    match op idx with
    | (JsResult.ok a, s) => ⟨JsResult.ok a, [], s⟩
    | (JsResult.err e, s) =>
      if isNetworkError e then
        let rest := retryNetworkRequest op r (idx + 1)
        ⟨rest.result,
          ((RETRY_CONFIG.retryDelay : Int) *
            ((RETRY_CONFIG.maxRetries : Int) - ((r : Int) + 1) + 1)) :: rest.delays,
          s ++ rest.sends⟩
      else ⟨JsResult.err e, [], s⟩

/-- `retryNetworkRequest(operation)` with its default retry budget. -/
def retryNetworkRequestRun (op : Nat → JsResult α × List JsString) : RunLog α :=
  retryNetworkRequest op RETRY_CONFIG.maxRetries 0

/-- The one mobile-leading digit test `/^[6-9]/` on a cleaned number. -/
def startsMobileDigit (s : JsString) : Bool :=
  match s with
  | c :: _ => c == '6' || c == '7' || c == '8' || c == '9'
  | [] => false

/-- The regex `/^[6-9]\d{9}$/`. -/
def isMobile10 (s : JsString) : Bool :=
  s.length == 10 && startsMobileDigit s && s.all Char.isDigit

/-- The regex `/^91[6-9]\d{9}$/` (anchored, so only 12-character strings
can pass). -/
def matches91Mobile (s : JsString) : Bool :=
  match s with
  | '9' :: '1' :: rest => isMobile10 rest
  | _ => false

namespace otpService

/-- `otpService.isValidFormattedPhoneNumber`: the regex `/^\+91[6-9]\d{9}$/`. -/
def isValidFormattedPhoneNumber (s : JsString) : Bool :=
  match s with
  | '+' :: '9' :: '1' :: rest => isMobile10 rest
  | _ => false

/-- `otpService.isValidPhoneNumber` (otpService.ts lines 423-438). -/
def isValidPhoneNumber (phone : JsString) : Bool :=
  let cleanPhone := phone.filter Char.isDigit
  if cleanPhone.length == 10 then isMobile10 cleanPhone
  else if cleanPhone.length == 12 && (js "91").isPrefixOf cleanPhone then
    matches91Mobile cleanPhone
  else if cleanPhone.length == 13 && (js "91").isPrefixOf cleanPhone then
    matches91Mobile cleanPhone
  else false

/-- `otpService.formatPhoneNumber` with its default `countryCode = '+91'`
(otpService.ts lines 409-420). -/
def formatPhoneNumber (phone : JsString) : JsString :=
  let cleanPhone := phone.filter Char.isDigit
  if (js "+91").isPrefixOf phone then phone
  else js "+91" ++ cleanPhone

/-- The phone-normalization chain of `sendPhoneOTPForSignup`
(otpService.ts lines 179-197); `none` models the thrown
invalid-phone-format error of line 195. -/
def signupFormatPhone (phone : JsString) : Option JsString :=
  let cleanPhone := phone.filter Char.isDigit
  if cleanPhone.length == 10 && startsMobileDigit cleanPhone then
    some (js "+91" ++ cleanPhone)
  else if cleanPhone.length == 12 && (js "91").isPrefixOf cleanPhone then
    some ('+' :: cleanPhone)
  else if cleanPhone.length == 13 && (js "91").isPrefixOf cleanPhone then
    some ('+' :: cleanPhone)
  else if !((js "+91").isPrefixOf phone) then
    let extractedDigits := cleanPhone.drop (cleanPhone.length - 10)
    if isMobile10 extractedDigits then some (js "+91" ++ extractedDigits)
    else none
  else some phone

/-- The user-facing invalid-phone-format message. -/
def invalidPhoneMsg : JsString :=
  js "Invalid phone number format. Please enter a valid 10-digit mobile number."

/-- The user-facing offline message. -/
def noInternetMsg : JsString :=
  js "No internet connection. Please check your network and try again."

/-- The user-facing network-failure message. -/
def networkFailedMsg : JsString :=
  js "Network connection failed. Please check your internet connection and try again."

/-- JS `error.message || fallback`. -/
def msgOr (m fallbackMsg : JsString) : JsString :=
  if m.isEmpty then fallbackMsg else m

/-- The catch clause of `sendEmailOTPForSignup` (otpService.ts
lines 155-170): rethrow the provider error as a fresh `Error` chosen by
substring matching. -/
def emailSignupMapError (e : JsError) : JsError :=
  if strContains e.message (js "Signups not allowed") then
    ⟨js "Error", js "Email signup is disabled. Please contact support or enable email signups in Supabase dashboard."⟩
  else if strContains e.message (js "User already registered") then
    ⟨js "Error", js "This email is already registered. Please use the login page instead."⟩
  else if strContains e.message (js "Failed to fetch") || e.name == js "AuthRetryableFetchError" then
    ⟨js "Error", networkFailedMsg⟩
  else ⟨js "Error", msgOr e.message (js "Failed to send email OTP")⟩

/-- The catch clause of `sendPhoneOTPForSignup` (otpService.ts
lines 228-246). -/
def phoneSignupMapError (e : JsError) : JsError :=
  if strContains e.message (js "Signups not allowed") then
    ⟨js "Error", js "Phone signup is disabled. Please contact support or enable phone signups in Supabase dashboard."⟩
  else if strContains e.message (js "User already registered") then
    ⟨js "Error", js "This phone number is already registered. Please use the login page instead."⟩
  else if strContains e.message (js "SMS provider") then
    ⟨js "Error", js "SMS service is not configured. Please contact support."⟩
  else if strContains e.message (js "Failed to fetch") || e.name == js "AuthRetryableFetchError" then
    ⟨js "Error", networkFailedMsg⟩
  else ⟨js "Error", msgOr e.message (js "Failed to send SMS OTP")⟩

/-- The catch clause of `sendPhoneOTPForLogin` (otpService.ts
lines 305-316). -/
def loginPhoneMapError (e : JsError) : JsError :=
  if strContains e.message (js "User not found") then
    ⟨js "Error", js "No account found with this phone number. Please sign up first."⟩
  else if strContains e.message (js "SMS provider") then
    ⟨js "Error", js "SMS service is not configured. Please contact support."⟩
  else ⟨js "Error", msgOr e.message (js "Failed to send SMS OTP")⟩

/-- The catch clause of `verifyOTP` (otpService.ts lines 355-376). -/
def verifyMapError (e : JsError) : JsError :=
  if strContains e.message (js "Token has expired") then
    ⟨js "Error", js "OTP has expired. Please request a new one."⟩
  else if strContains e.message (js "Invalid token") then
    ⟨js "Error", js "Invalid OTP code. Please check and try again."⟩
  else if strContains e.message (js "Email not confirmed") then
    ⟨js "Error", js "Email verification failed. Please try again."⟩
  else if strContains e.message (js "Phone not confirmed") then
    ⟨js "Error", js "Phone verification failed. Please try again."⟩
  else if strContains e.message (js "Failed to fetch") || e.name == js "AuthRetryableFetchError" then
    ⟨js "Error", networkFailedMsg⟩
  else ⟨js "Error", msgOr e.message (js "OTP verification failed")⟩

/-- One attempt of the closure passed to `retryNetworkRequest` by
`sendEmailOTPForSignup`: offline check, provider dispatch, catch-clause
rewrite.  `provider i` is the error (if any) of the `signInWithOtp` call
made on attempt `i`. -/
def sendEmailOTPForSignupAttempt (online : Bool) (provider : Nat → Option JsError)
    (email : JsString) (i : Nat) : JsResult Unit × List JsString :=
  if !online then (JsResult.err (emailSignupMapError ⟨js "Error", noInternetMsg⟩), [])
  else
    match provider i with
    | none => (JsResult.ok (), [email])
    | some e => (JsResult.err (emailSignupMapError e), [email])

/-- `otpService.sendEmailOTPForSignup`: the attempt closure wrapped in
`retryNetworkRequest`. -/
def sendEmailOTPForSignup (online : Bool) (provider : Nat → Option JsError)
    (email : JsString) : RunLog Unit :=
  retryNetworkRequestRun (sendEmailOTPForSignupAttempt online provider email)

/-- One attempt of the closure passed to `retryNetworkRequest` by
`sendPhoneOTPForSignup` (otpService.ts lines 176-247): phone normalization,
format validation, offline check, provider dispatch, catch-clause
rewrite.  `provider i f` is the error (if any) of the `signInWithOtp` call
made to number `f` on attempt `i`. -/
def sendPhoneOTPForSignupAttempt (online : Bool)
    (provider : Nat → JsString → Option JsError) (phone : JsString) (i : Nat) :
    JsResult Unit × List JsString :=
  match signupFormatPhone phone with
  | none => (JsResult.err (phoneSignupMapError ⟨js "Error", invalidPhoneMsg⟩), [])
  | some formattedPhone =>
    if !isValidFormattedPhoneNumber formattedPhone then
      (JsResult.err (phoneSignupMapError ⟨js "Error", invalidPhoneMsg⟩), [])
    else if !online then
      (JsResult.err (phoneSignupMapError ⟨js "Error", noInternetMsg⟩), [])
    else
      match provider i formattedPhone with
      | none => (JsResult.ok (), [formattedPhone])
      | some e => (JsResult.err (phoneSignupMapError e), [formattedPhone])

/-- `otpService.sendPhoneOTPForSignup`: the attempt closure wrapped in
`retryNetworkRequest`. -/
def sendPhoneOTPForSignup (online : Bool)
    (provider : Nat → JsString → Option JsError) (phone : JsString) : RunLog Unit :=
  retryNetworkRequestRun (sendPhoneOTPForSignupAttempt online provider phone)

/-- `otpService.sendPhoneOTPForLogin` (otpService.ts lines 282-317): format,
validate the raw input, dispatch (no retry wrapper on the login path).
Returns the result and the list of numbers actually dispatched to. -/
def sendPhoneOTPForLogin (provider : JsString → Option JsError)
    (phone : JsString) : JsResult Unit × List JsString :=
  let formattedPhone := formatPhoneNumber phone
  if !isValidPhoneNumber phone then
    (JsResult.err (loginPhoneMapError ⟨js "Error", invalidPhoneMsg⟩), [])
  else
    match provider formattedPhone with
    | none => (JsResult.ok (), [formattedPhone])
    | some e => (JsResult.err (loginPhoneMapError e), [formattedPhone])

/-- One attempt of the closure passed to `retryNetworkRequest` by
`verifyOTP` (otpService.ts lines 320-378).  `provider i` is the outcome of
the `verifyOtp` call of attempt `i`: `ok u` resolves with user `u` (or no
user), `err e` is the provider error. -/
def verifyOTPAttempt (online : Bool) (provider : Nat → JsResult (Option JsString))
    (identifier : JsString) (i : Nat) : JsResult (Option JsString) × List JsString :=
  if !online then (JsResult.err (verifyMapError ⟨js "Error", noInternetMsg⟩), [])
  else
    match provider i with
    | JsResult.ok u => (JsResult.ok u, [identifier])
    | JsResult.err e => (JsResult.err (verifyMapError e), [identifier])

/-- `otpService.verifyOTP`: the attempt closure wrapped in
`retryNetworkRequest`. -/
def verifyOTP (online : Bool) (provider : Nat → JsResult (Option JsString))
    (identifier : JsString) : RunLog (Option JsString) :=
  retryNetworkRequestRun (verifyOTPAttempt online provider identifier)

end otpService

/-- A row of the `user_profiles` table.  Text columns are nullable
(`Option`); timestamps are abstract instants. -/
structure ProfileRow where
  full_name : Option JsString
  email : Option JsString
  phone_number : Option JsString
  product_id : Option JsString
  created_at : Option Nat
  updated_at : Option Nat
deriving DecidableEq, Repr

/-- `SignUpData` of authService.ts: the staged signup payload. -/
structure SignUpData where
  email : JsString
  password : JsString
  fullName : JsString
  productId : JsString
  mobileNumber : JsString
deriving DecidableEq, Repr

/-- `TempUserData` of authService.ts. -/
structure TempUserData where
  productId : JsString
  fullName : JsString
  mobileNumber : JsString
  email : JsString
  password : JsString
deriving DecidableEq, Repr

/-- `SignInData` of authService.ts. -/
structure SignInData where
  emailOrPhone : JsString
  password : JsString
deriving DecidableEq, Repr

/-- The merge the specification ascribes to reconciliation: take the
incoming value when it is non-null, keep the existing value otherwise.
Stated from the spec's words for comparison against the code. -/
def specMerge (existing incoming : Option JsString) : Option JsString :=
  match incoming with
  | some v => some v
  | none => existing

/-- SQL `COALESCE` on two nullable values. -/
def sqlCoalesce (a b : Option α) : Option α :=
  match a with
  | some v => some v
  | none => b

/-- An `auth.users` row as seen by the profile trigger: native email and
phone plus the `full_name` entry of the raw metadata bag. -/
structure AuthUser where
  email : Option JsString
  phone : Option JsString
  meta_full_name : Option JsString
deriving DecidableEq, Repr

/-- The trigger function `handle_new_user` of the part_003 migration
(lines 53-76): insert `(id, full_name, email, phone_number)` with each
value `COALESCE(raw, '')`, and on id conflict update each of those columns
to `COALESCE(EXCLUDED.col, user_profiles.col)` and bump `updated_at`.
`existing` is the profile row already present for the id, if any. -/
def handle_new_user (existing : Option ProfileRow) (u : AuthUser) (now : Nat) :
    ProfileRow :=
  let insRow : ProfileRow :=
    { full_name := some (u.meta_full_name.getD (js ""))
      email := some (u.email.getD (js ""))
      phone_number := some (u.phone.getD (js ""))
      product_id := none
      created_at := some now
      updated_at := some now }
  match existing with
  | none => insRow
  | some ex =>
    { ex with
      full_name := sqlCoalesce insRow.full_name ex.full_name
      email := sqlCoalesce insRow.email ex.email
      phone_number := sqlCoalesce insRow.phone_number ex.phone_number
      updated_at := some now }

namespace authService

/-- The row payload of the `user_profiles` upsert inside
`completeSignupAfterOTP` (authService.ts part_001 lines 90-100): columns
id, full_name, email, phone_number, created_at, updated_at — and no
product_id. -/
def completeSignupUpsertInsert (data : SignUpData) (now : Nat) : ProfileRow :=
  { full_name := some data.fullName
    email := some data.email
    phone_number := some (if startsWithPlus data.mobileNumber then data.mobileNumber
      else js "+91" ++ data.mobileNumber)
    product_id := none
    created_at := some now
    updated_at := some now }

/-- Effect of that upsert when a row for the id already exists: with
`onConflict: 'id'` and `ignoreDuplicates: false`, PostgREST issues
`ON CONFLICT (id) DO UPDATE SET col = EXCLUDED.col` for exactly the
payload columns, so each supplied column is overwritten with the incoming
value and every omitted column (product_id) keeps its existing value. -/
def completeSignupUpsertMerge (ex : ProfileRow) (data : SignUpData) (now : Nat) :
    ProfileRow :=
  { completeSignupUpsertInsert data now with product_id := ex.product_id }

/-- The profile-upsert retry loop of `completeSignupAfterOTP` (part_001
lines 84-114): up to `remaining` attempts starting at number `attempt`;
stop with `none` on the first success, otherwise keep the last error.
`upsertError a` is the error (if any) of attempt `a`. -/
def profileUpsertLoop (upsertError : Nat → Option JsError) :
    Nat → Nat → Option JsError
  | _, 0 => none
  | attempt, Nat.succ remaining =>
    match upsertError attempt with
    | none => none
    | some e =>
      if remaining == 0 then some e
      else profileUpsertLoop upsertError (attempt + 1) remaining

/-- Result of `completeSignupAfterOTP` (part_001 lines 67-129): the value
returned to the caller plus what was merely logged. -/
structure CompleteSignupResult where
  data : Option JsString
  error : Option JsError
  loggedUpdateUserError : Option JsError
  loggedProfileError : Option JsError
deriving DecidableEq, Repr

/-- `authService.completeSignupAfterOTP`: update user metadata (an error is
logged, not thrown), run the 3-attempt profile upsert loop (exhaustion is
logged, not thrown), then return the result of `auth.getUser()`. -/
def completeSignupAfterOTP (updateUserError : Option JsError)
    (upsertError : Nat → Option JsError)
    (getUserResult : Option JsString × Option JsError) : CompleteSignupResult :=
  let profileError := profileUpsertLoop upsertError 1 3
  { data := getUserResult.1
    error := getUserResult.2
    loggedUpdateUserError := updateUserError
    loggedProfileError := profileError }

/-- `authService.validateProductId` (lines 25-38): the supabase
`.single()` query result is `(data, error)`; validity is
`!!data && !error`, and the raw error is passed through. -/
def validateProductId (queryResult : Option JsString × Option JsError) :
    Bool × Option JsError :=
  (queryResult.1.isSome && queryResult.2.isNone, queryResult.2)

/-- The kind of payload `authService.signIn` (part_001 lines 176-197)
hands to `signInWithPassword`. -/
inductive SignInPayload where
  | email (e pw : JsString)
  | phone (p pw : JsString)
deriving DecidableEq, Repr

/-- The routing of `authService.signIn`: inputs containing `@` go to the
email path unchanged; others go to the phone path, `+91`-prefixed unless
already starting with `+`. -/
def signInPayload (data : SignInData) : SignInPayload :=
  if data.emailOrPhone.contains '@' then
    SignInPayload.email data.emailOrPhone data.password
  else
    SignInPayload.phone
      (if startsWithPlus data.emailOrPhone then data.emailOrPhone
       else js "+91" ++ data.emailOrPhone)
      data.password

end authService

/-- A row of the `products` table. -/
structure Product where
  id : JsString
  is_active : Bool
deriving DecidableEq, Repr

/-- The supabase query of `validateProductId`:
`from('products').select('id').eq('id', pid).eq('is_active', true).single()`
evaluated against table contents `db`.  `.single()` yields the row when
exactly one matches and an error otherwise. -/
def productQuerySingle (db : List Product) (pid : JsString) :
    Option JsString × Option JsError :=
  match db.filter (fun p => p.id == pid && p.is_active) with
  | [p] => (some p.id, none)
  | _ => (none, some ⟨js "PGRST116", js "JSON object requested, multiple (or no) rows returned"⟩)

namespace OTPVerification

/-- Observable outcome of the component's `verifyOTP` handler
(OTPVerification.tsx lines 73-135). -/
structure VerifyFlowResult where
  verifyCalls : Nat
  completeSignupCalled : Bool
  tempCleared : Bool
  completed : Bool
  errorToast : Option JsString
  loggedProfileError : Option JsError
  localRejected : Bool
deriving DecidableEq, Repr

/-- The component's `verifyOTP` handler: local 6-digit precheck (no
network on failure), then the service verify call, then
`completeSignupAfterOTP` when a user was returned, then clearing the
staged data and completing; any thrown error is caught into a toast. -/
def verifyOTP (otp : JsString) (verifyResult : JsResult (Option JsString))
    (updateUserError : Option JsError) (upsertError : Nat → Option JsError)
    (getUserResult : Option JsString × Option JsError) : VerifyFlowResult :=
  if otp.isEmpty || otp.length != 6 then
    { verifyCalls := 0, completeSignupCalled := false, tempCleared := false
      completed := false, errorToast := none, loggedProfileError := none
      localRejected := true }
  else
    match verifyResult with
    | JsResult.err e =>
      { verifyCalls := 1, completeSignupCalled := false, tempCleared := false
        completed := false
        errorToast := some (otpService.msgOr e.message (js "Invalid OTP. Please try again."))
        loggedProfileError := none, localRejected := false }
    | JsResult.ok none =>
      { verifyCalls := 1, completeSignupCalled := false, tempCleared := true
        completed := true, errorToast := none, loggedProfileError := none
        localRejected := false }
    | JsResult.ok (some _uid) =>
      let r := authService.completeSignupAfterOTP updateUserError upsertError getUserResult
      match r.error with
      | some e =>
        { verifyCalls := 1, completeSignupCalled := true, tempCleared := false
          completed := false
          errorToast := some (otpService.msgOr e.message (js "Invalid OTP. Please try again."))
          loggedProfileError := r.loggedProfileError, localRejected := false }
      | none =>
        { verifyCalls := 1, completeSignupCalled := true, tempCleared := true
          completed := true, errorToast := none
          loggedProfileError := r.loggedProfileError, localRejected := false }

end OTPVerification

namespace Signup

/-- The signup form state (Signup.tsx). -/
structure SignupFormData where
  productId : JsString
  name : JsString
  mobileNumber : JsString
  email : JsString
  password : JsString
  confirmPassword : JsString
deriving DecidableEq, Repr

/-- `validateForm` of Signup.tsx (lines 44-63): the ordered list of
violated rules. -/
def validateForm (f : SignupFormData) : List JsString :=
  (if (jsTrim f.productId).isEmpty then [js "Product ID is required"] else []) ++
  (if (jsTrim f.name).isEmpty then [js "Full name is required"] else []) ++
  (if (jsTrim f.email).isEmpty then [js "Email is required"] else []) ++
  (if (jsTrim f.mobileNumber).isEmpty then [js "Mobile number is required"] else []) ++
  (if f.mobileNumber.length != 10 then [js "Mobile number must be 10 digits"] else []) ++
  (if f.password.isEmpty then [js "Password is required"] else []) ++
  (if f.password.length < 6 then [js "Password must be at least 6 characters"] else []) ++
  (if f.password != f.confirmPassword then [js "Passwords do not match"] else []) ++
  (if !f.email.isEmpty && !emailRegexTest f.email then [js "Please enter a valid email address"] else [])

/-- The uniform invalid-product message of Signup.tsx line 84. -/
def invalidProductMsg : JsString :=
  js "Invalid Product ID. Please check your Product ID and try again."

/-- Observable outcome of the signup form submission. -/
structure SubmitResult where
  toastError : Option JsString
  tempStored : Option TempUserData
  showOTPVerification : Bool
deriving DecidableEq, Repr

/-- `handleSubmit` of Signup.tsx (lines 64-114): surface the first local
validation violation; otherwise validate the product id (any negative
result throws the one opaque message) and only then stage the temp data
and move to OTP verification. -/
def handleSubmit (f : SignupFormData)
    (productQuery : Option JsString × Option JsError) : SubmitResult :=
  match validateForm f with
  | e :: _ => { toastError := some e, tempStored := none, showOTPVerification := false }
  | [] =>
    let v := authService.validateProductId productQuery
    if !v.1 then
      { toastError := some invalidProductMsg, tempStored := none
        showOTPVerification := false }
    else
      { toastError := none
        tempStored := some
          { productId := f.productId, fullName := f.name
            mobileNumber := if startsWithPlus f.mobileNumber then f.mobileNumber
              else js "+91" ++ f.mobileNumber
            email := f.email, password := f.password }
        showOTPVerification := true }

end Signup

namespace Login

/-- `validateInput` of the Login component (Signup.tsx part 2,
lines 323-367): nonempty input and password; email-shaped inputs must pass
the email regex, others must be exactly 10 digits. -/
def validateInput (emailOrPhone password : JsString) : Bool :=
  if (jsTrim emailOrPhone).isEmpty then false
  else if password.isEmpty then false
  else if emailOrPhone.contains '@' then emailRegexTest emailOrPhone
  else emailOrPhone.length == 10 && emailOrPhone.all Char.isDigit

/-- The input formatting of the Login `handleSubmit` (lines 379-381):
emails pass through; phone inputs get `+91` prefixed unless already
starting with `+`. -/
def formattedInput (emailOrPhone : JsString) : JsString :=
  if emailOrPhone.contains '@' then emailOrPhone
  else if startsWithPlus emailOrPhone then emailOrPhone
  else js "+91" ++ emailOrPhone

/-- The composed payload the Login submission hands to the identity
provider: format the input, then route through `authService.signIn`. -/
def handleSubmitPayload (emailOrPhone password : JsString) :
    authService.SignInPayload :=
  authService.signInPayload ⟨formattedInput emailOrPhone, password⟩

end Login

/-- The opening-brace character, written by code point. -/
def lbraceChar : Char := Char.ofNat 123

/-- The closing-brace character, written by code point. -/
def rbraceChar : Char := Char.ofNat 125

/-- The double-quote character, written by code point. -/
def quoteChar : Char := Char.ofNat 34

/-- The backslash character, written by code point. -/
def backslashChar : Char := Char.ofNat 92

/-- A JSON value as produced by `JSON.parse`.  Numbers keep their source
lexeme (their numeric value plays no role here). -/
inductive Json where
  | null
  | bool (b : Bool)
  | num (lexeme : JsString)
  | strV (s : JsString)
  | arr (elems : List Json)
  | obj (members : List (JsString × Json))

/-- JSON insignificant whitespace. -/
def jsonWs (c : Char) : Bool :=
  c == ' ' || c == '\t' || c == '\n' || c == '\r'

/-- Drop leading JSON whitespace. -/
def skipWs (s : JsString) : JsString := s.dropWhile jsonWs

/-- Value of a hexadecimal digit, by code point. -/
def hexDigitVal (c : Char) : Option Nat :=
  let n := c.toNat
  if 48 ≤ n && n ≤ 57 then some (n - 48)
  else if 97 ≤ n && n ≤ 102 then some (n - 87)
  else if 65 ≤ n && n ≤ 70 then some (n - 55)
  else none

/-- The two-character escapes of a JSON string and their code points. -/
def simpleEscapes : List (Char × Nat) :=
  [('b', 8), ('f', 12), ('n', 10), ('r', 13), ('t', 9)]

/-- Prepend a character to the string part of a string-parse result. -/
def withChar (c : Char) : Option (JsString × JsString) → Option (JsString × JsString)
  | some (cs, r) => some (c :: cs, r)
  | none => none

/-- Parse the body of a JSON string (after the opening quote) up to and
including the closing quote, processing escapes; fails on invalid escapes
and raw control characters, as `JSON.parse` does. -/
def parseStringBody : Nat → JsString → Option (JsString × JsString)
  | 0, _ => none
  | Nat.succ fuel, s =>
    match s with
    | [] => none
    | c :: rest =>
      if c == quoteChar then some ([], rest)
      else if c == backslashChar then
        match rest with
        | [] => none
        | e :: rest2 =>
          if e == quoteChar || e == backslashChar || e == '/' then
            withChar e (parseStringBody fuel rest2)
          else
            match simpleEscapes.lookup e with
            | some code => withChar (Char.ofNat code) (parseStringBody fuel rest2)
            | none =>
            if e == 'u' then
            match rest2 with
            | h1 :: h2 :: h3 :: h4 :: rest3 =>
              match hexDigitVal h1, hexDigitVal h2, hexDigitVal h3, hexDigitVal h4 with
              | some v1, some v2, some v3, some v4 =>
                withChar (Char.ofNat (((v1 * 16 + v2) * 16 + v3) * 16 + v4))
                  (parseStringBody fuel rest3)
              | _, _, _, _ => none
            | _ => none
          else none
      else if c.toNat < 32 then none
      else withChar c (parseStringBody fuel rest)

/-- Parse the optional fraction part of a JSON number. -/
def parseFrac (s : JsString) : Option (JsString × JsString) :=
  match s with
  | '.' :: rest =>
    let ds := rest.takeWhile Char.isDigit
    if ds.isEmpty then none else some ('.' :: ds, rest.dropWhile Char.isDigit)
  | _ => some ([], s)

/-- Parse the optional exponent part of a JSON number. -/
def parseExp (s : JsString) : Option (JsString × JsString) :=
  match s with
  | c :: rest =>
    if c == 'e' || c == 'E' then
      let (sign, r2) :=
        match rest with
        | k :: r => if k == '+' || k == '-' then ([k], r) else (([] : JsString), rest)
        | [] => ([], rest)
      let ds := r2.takeWhile Char.isDigit
      if ds.isEmpty then none
      else some (c :: sign ++ ds, r2.dropWhile Char.isDigit)
    else some ([], s)
  | [] => some ([], [])

/-- Parse a JSON number `-?(0|[1-9]\d*)(\.\d+)?([eE][+-]?\d+)?`, returning
its lexeme and the rest of the input. -/
def parseNumber (s : JsString) : Option (JsString × JsString) :=
  let (neg, s1) :=
    match s with
    | c :: rest => if c == '-' then (([c] : JsString), rest) else (([] : JsString), s)
    | [] => ([], s)
  match s1 with
  | [] => none
  | c :: rest =>
    if c == '0' then
      match parseFrac rest with
      | none => none
      | some (fr, r2) =>
        match parseExp r2 with
        | none => none
        | some (ex, r3) => some (neg ++ [c] ++ fr ++ ex, r3)
    else if c.isDigit then
      let ds := rest.takeWhile Char.isDigit
      match parseFrac (rest.dropWhile Char.isDigit) with
      | none => none
      | some (fr, r2) =>
        match parseExp r2 with
        | none => none
        | some (ex, r3) => some (neg ++ c :: ds ++ fr ++ ex, r3)
    else none

mutual

/-- Parse one JSON value (fuel-bounded). -/
def parseValue : Nat → JsString → Option (Json × JsString)
  | 0, _ => none
  | Nat.succ fuel, s =>
    let s1 := skipWs s
    match s1 with
    | [] => none
    | c :: rest =>
      if c == quoteChar then
        match parseStringBody (rest.length + 1) rest with
        | some (cs, r) => some (Json.strV cs, r)
        | none => none
      else if c == lbraceChar then parseMembersStart fuel rest
      else if c == '[' then parseElemsStart fuel rest
      else if (js "null").isPrefixOf s1 then some (Json.null, s1.drop 4)
      else if (js "true").isPrefixOf s1 then some (Json.bool true, s1.drop 4)
      else if (js "false").isPrefixOf s1 then some (Json.bool false, s1.drop 5)
      else if c == '-' || c.isDigit then
        match parseNumber s1 with
        | some (lex, r) => some (Json.num lex, r)
        | none => none
      else none

/-- Parse the elements of a JSON array, right after the `[`. -/
def parseElemsStart : Nat → JsString → Option (Json × JsString)
  | 0, _ => none
  | Nat.succ fuel, s =>
    let s1 := skipWs s
    match s1 with
    | [] => none
    | c :: r =>
      if c == ']' then some (Json.arr [], r)
      else
        match parseValue fuel s1 with
        | some (v, r2) => parseElemsRest fuel [v] r2
        | none => none

/-- Parse the remaining elements of a JSON array after at least one. -/
def parseElemsRest : Nat → List Json → JsString → Option (Json × JsString)
  | 0, _, _ => none
  | Nat.succ fuel, acc, s =>
    let s1 := skipWs s
    match s1 with
    | [] => none
    | c :: r =>
      if c == ']' then some (Json.arr acc.reverse, r)
      else if c == ',' then
        match parseValue fuel r with
        | some (v, r2) => parseElemsRest fuel (v :: acc) r2
        | none => none
      else none

/-- Parse the members of a JSON object, right after the opening brace. -/
def parseMembersStart : Nat → JsString → Option (Json × JsString)
  | 0, _ => none
  | Nat.succ fuel, s =>
    let s1 := skipWs s
    match s1 with
    | [] => none
    | c :: r =>
      if c == rbraceChar then some (Json.obj [], r)
      else if c == quoteChar then
        match parseStringBody (r.length + 1) r with
        | some (k, r2) =>
          match skipWs r2 with
          | ':' :: r3 =>
            match parseValue fuel r3 with
            | some (v, r4) => parseMembersRest fuel [(k, v)] r4
            | none => none
          | _ => none
        | none => none
      else none

/-- Parse the remaining members of a JSON object after at least one. -/
def parseMembersRest : Nat → List (JsString × Json) → JsString → Option (Json × JsString)
  | 0, _, _ => none
  | Nat.succ fuel, acc, s =>
    let s1 := skipWs s
    match s1 with
    | [] => none
    | c :: r =>
      if c == rbraceChar then some (Json.obj acc.reverse, r)
      else if c == ',' then
        match skipWs r with
        | q :: r2 =>
          if q == quoteChar then
            match parseStringBody (r2.length + 1) r2 with
            | some (k, r3) =>
              match skipWs r3 with
              | ':' :: r4 =>
                match parseValue fuel r4 with
                | some (v, r5) => parseMembersRest fuel ((k, v) :: acc) r5
                | none => none
              | _ => none
            | none => none
          else none
        | [] => none
      else none

end

/-- `JSON.parse`: parse one value and require only whitespace after it;
`none` models a thrown `SyntaxError`. -/
def jsonParse (s : JsString) : Option Json :=
  match parseValue (2 * s.length + 2) s with
  | some (v, rest) => if (skipWs rest).isEmpty then some v else none
  | none => none

namespace authService

/-- `authService.getTempUserData` (lines 52-59) over the content of the
`localStorage` staging slot: an absent slot or an empty string yields JS
`null` (the ternary), a parse failure is caught to `null`, and a
successful parse is returned whole.  The JS `null` return is `Json.null`. -/
def getTempUserData (slot : Option JsString) : Json :=
  match slot with
  | none => Json.null
  | some s => if s.isEmpty then Json.null else (jsonParse s).getD Json.null

end authService

/-- A rethrown error carrying `invalidPhoneMsg` passes unchanged through
the phone-signup catch clause. -/
theorem phoneSignupMapError_invalidPhone :
    otpService.phoneSignupMapError ⟨js "Error", otpService.invalidPhoneMsg⟩ =
      ⟨js "Error", otpService.invalidPhoneMsg⟩ := by decide

/-- The invalid-phone-format error is not classified transient. -/
theorem invalidPhoneMsg_not_network :
    isNetworkError ⟨js "Error", otpService.invalidPhoneMsg⟩ = false := by decide

/-- The rewritten network-failure error is not classified transient. -/
theorem networkFailedMsg_not_network :
    isNetworkError ⟨js "Error", otpService.networkFailedMsg⟩ = false := by decide

/-- A first attempt failing with a non-transient error ends the retried
run immediately: no waits, and only that attempt's dispatches. -/
theorem retryRun_stops_on_nonNetwork (op : Nat → JsResult α × List JsString)
    (e : JsError) (s : List JsString) (hop : op 0 = (JsResult.err e, s))
    (he : isNetworkError e = false) :
    retryNetworkRequestRun op = ⟨JsResult.err e, [], s⟩ := by
  show retryNetworkRequest op (Nat.succ 2) 0 = _
  simp [retryNetworkRequest, hop, he]

/-- C1: the claim says both reconciliation writers merge with
null-coalescing field semantics (incoming non-null wins, otherwise the
existing value is kept).  At this concrete state the client-driven upsert
keeps the existing product_id even though the incoming one is non-null,
and the trigger-side conflict update replaces an existing non-null
full_name with the empty string when the incoming metadata field is null —
both contradicting the claimed merge equation. -/
theorem C1_counterexample :
    (authService.completeSignupUpsertMerge
        ⟨some (js "Alice"), some (js "a@b.co"), some (js "+917877059117"),
          some (js "DEMO-001"), some 1, some 1⟩
        ⟨js "a@b.co", js "secret1", js "Alice", js "AGRICURE-002", js "7877059117"⟩
        2).product_id = some (js "DEMO-001") ∧
    specMerge (some (js "DEMO-001")) (some (js "AGRICURE-002")) = some (js "AGRICURE-002") ∧
    (authService.completeSignupUpsertMerge
        ⟨some (js "Alice"), some (js "a@b.co"), some (js "+917877059117"),
          some (js "DEMO-001"), some 1, some 1⟩
        ⟨js "a@b.co", js "secret1", js "Alice", js "AGRICURE-002", js "7877059117"⟩
        2).product_id ≠ specMerge (some (js "DEMO-001")) (some (js "AGRICURE-002")) ∧
    (handle_new_user
        (some ⟨some (js "Alice"), some (js "a@b.co"), some (js "+917877059117"),
          some (js "DEMO-001"), some 1, some 1⟩)
        ⟨none, none, none⟩ 2).full_name = some (js "") ∧
    specMerge (some (js "Alice")) none = some (js "Alice") ∧
    (handle_new_user
        (some ⟨some (js "Alice"), some (js "a@b.co"), some (js "+917877059117"),
          some (js "DEMO-001"), some 1, some 1⟩)
        ⟨none, none, none⟩ 2).full_name ≠ specMerge (some (js "Alice")) none := by
  decide

/-- C1 amended: on the client-driven upsert the provided columns
(full_name, email, phone_number) are overwritten with the always-non-null
incoming values — which coincides with the claimed merge for those columns
— while product_id is omitted from the payload, so the existing product_id
is kept and the incoming one is dropped; on the trigger side each field is
replaced by the incoming value when present and by the empty string when
the incoming value is null, never preserved, while product_id and
created_at are untouched by the conflict update. -/
theorem C1_theorem (ex : ProfileRow) (data : SignUpData) (u : AuthUser) (now : Nat) :
    (authService.completeSignupUpsertMerge ex data now).full_name =
      specMerge ex.full_name (some data.fullName) ∧
    (authService.completeSignupUpsertMerge ex data now).email =
      specMerge ex.email (some data.email) ∧
    (authService.completeSignupUpsertMerge ex data now).phone_number =
      specMerge ex.phone_number
        (some (if startsWithPlus data.mobileNumber then data.mobileNumber
          else js "+91" ++ data.mobileNumber)) ∧
    (authService.completeSignupUpsertMerge ex data now).product_id = ex.product_id ∧
    (handle_new_user (some ex) u now).full_name =
      some (u.meta_full_name.getD (js "")) ∧
    (handle_new_user (some ex) u now).email = some (u.email.getD (js "")) ∧
    (handle_new_user (some ex) u now).phone_number = some (u.phone.getD (js "")) ∧
    (handle_new_user (some ex) u now).product_id = ex.product_id ∧
    (handle_new_user (some ex) u now).created_at = ex.created_at :=
  ⟨rfl, rfl, rfl, rfl, rfl, rfl, rfl, rfl, rfl⟩

/-- C2: the claim says a transient provider error is retried for at most
3 attempts total, at delays 1s and 2s, and then surfaces as the network
failure.  Fed a raw transient error, `retryNetworkRequest` in fact makes
4 attempts with waits 1s, 2s and 3s; and the composed email-signup send,
whose catch clause rewrites a `Failed to fetch` error into the
network-failure message before the classifier sees it, performs no retry
at all. -/
theorem C2_counterexample :
    (retryNetworkRequestRun (fun _ =>
        ((JsResult.err ⟨js "TypeError", js "Failed to fetch"⟩ : JsResult Unit),
          []))).delays = [1000, 2000, 3000] ∧
    ((retryNetworkRequestRun (fun _ =>
        ((JsResult.err ⟨js "TypeError", js "Failed to fetch"⟩ : JsResult Unit),
          []))).delays.length + 1 = 4) ∧
    (otpService.sendEmailOTPForSignup true
        (fun _ => some ⟨js "TypeError", js "Failed to fetch"⟩) (js "a@b.co")).delays = [] ∧
    (otpService.sendEmailOTPForSignup true
        (fun _ => some ⟨js "TypeError", js "Failed to fetch"⟩) (js "a@b.co")).result =
      JsResult.err ⟨js "Error", otpService.networkFailedMsg⟩ := by
  decide

/-- C2 amended: `retryNetworkRequest` given an operation failing with a raw
transient-classified error makes 4 attempts in total, waiting 1s, 2s and 3s
before the retries, and then rethrows that error unchanged; a non-transient
error propagates immediately with no retry; and the email-signup wrapper
rewrites a provider error whose message contains `Failed to fetch` into the
network-failure error before `retryNetworkRequest` classifies it, so the
wrapped send makes exactly one attempt, with no retry, surfacing the
network-failure copy. -/
theorem C2_theorem (e1 e2 e3 : JsError) (email : JsString)
    (h1 : isNetworkError e1 = true)
    (h2 : isNetworkError e2 = false)
    (h3a : strContains e3.message (js "Failed to fetch") = true)
    (h3b : strContains e3.message (js "Signups not allowed") = false)
    (h3c : strContains e3.message (js "User already registered") = false) :
    retryNetworkRequestRun (fun _ => ((JsResult.err e1 : JsResult Unit), [])) =
      ⟨JsResult.err e1, [1000, 2000, 3000], []⟩ ∧
    retryNetworkRequestRun (fun _ => ((JsResult.err e2 : JsResult Unit), [])) =
      ⟨JsResult.err e2, [], []⟩ ∧
    otpService.sendEmailOTPForSignup true (fun _ => some e3) email =
      ⟨JsResult.err ⟨js "Error", otpService.networkFailedMsg⟩, [], [email]⟩ := by
  refine ⟨?_, ?_, ?_⟩
  · show retryNetworkRequest _ (Nat.succ 2) 0 = _
    simp [retryNetworkRequest, h1, RETRY_CONFIG.retryDelay, RETRY_CONFIG.maxRetries]
  · exact retryRun_stops_on_nonNetwork _ e2 [] rfl h2
  · have hmap : otpService.emailSignupMapError e3 = ⟨js "Error", otpService.networkFailedMsg⟩ := by
      simp [otpService.emailSignupMapError, h3a, h3b, h3c]
    exact retryRun_stops_on_nonNetwork _ _ [email]
      (by simp [otpService.sendEmailOTPForSignupAttempt, hmap])
      (by rw [hmap] at *; exact networkFailedMsg_not_network)

/-- C4: the signup send path normalizes the 12-digit country-code-carrying
number `917877059117` to `+917877059117` (and is stable on the `+`-form),
but the login send path — whose own `isValidPhoneNumber` accepts exactly
this input — formats it by prefixing `+91` to the full digit string and
dispatches the OTP to `+91917877059117`. -/
theorem C4_theorem :
    otpService.isValidPhoneNumber (js "917877059117") = true ∧
    otpService.formatPhoneNumber (js "917877059117") = js "+91917877059117" ∧
    (otpService.sendPhoneOTPForLogin (fun _ => none) (js "917877059117")).2 =
      [js "+91917877059117"] ∧
    otpService.signupFormatPhone (js "917877059117") = some (js "+917877059117") ∧
    otpService.signupFormatPhone (js "+917877059117") = some (js "+917877059117") := by
  decide

/-- C2 witness: the amended retry characterization at the concrete
`Failed to fetch` error, a concrete non-transient error, and the concrete
wrapped email send. -/
theorem C2_witness :
    retryNetworkRequestRun (fun _ =>
        ((JsResult.err ⟨js "TypeError", js "Failed to fetch"⟩ : JsResult Unit), [])) =
      ⟨JsResult.err ⟨js "TypeError", js "Failed to fetch"⟩, [1000, 2000, 3000], []⟩ ∧
    retryNetworkRequestRun (fun _ =>
        ((JsResult.err ⟨js "Error", js "boom"⟩ : JsResult Unit), [])) =
      ⟨JsResult.err ⟨js "Error", js "boom"⟩, [], []⟩ ∧
    otpService.sendEmailOTPForSignup true
        (fun _ => some ⟨js "TypeError", js "Failed to fetch"⟩) (js "a@b.co") =
      ⟨JsResult.err ⟨js "Error", otpService.networkFailedMsg⟩, [], [js "a@b.co"]⟩ :=
  C2_theorem ⟨js "TypeError", js "Failed to fetch"⟩ ⟨js "Error", js "boom"⟩
    ⟨js "TypeError", js "Failed to fetch"⟩ (js "a@b.co")
    (by decide) (by decide) (by decide) (by decide) (by decide)

/-- C3: the claim lists 11-digit strings not starting with the country
code 91 among the inputs that must fail with the invalid-phone-format
error and cause no send.  The 11-digit input `98765432109` does not start
with 91, yet the signup dispatch recovers its last 10 digits and sends an
OTP to `+918765432109`. -/
theorem C3_counterexample :
    (js "98765432109").length = 11 ∧
    (js "98765432109").all Char.isDigit = true ∧
    (js "91").isPrefixOf (js "98765432109") = false ∧
    (otpService.sendPhoneOTPForSignup true (fun _ _ => none)
        (js "98765432109")).result = JsResult.ok () ∧
    (otpService.sendPhoneOTPForSignup true (fun _ _ => none)
        (js "98765432109")).sends = [js "+918765432109"] := by
  decide

/-- C3 amended: whenever the normalization chain rejects the input (or
produces a form failing the final `+91[6-9]\d{9}` validation), the signup
phone dispatch fails with the invalid-phone-format error, performs no
retry, and dispatches nothing to the provider — regardless of
connectivity and provider behaviour.  Inputs whose last 10 digits form a
valid mobile number (and which do not start with `+91`) are instead
recovered by extraction, as the counterexample shows. -/
theorem C3_theorem (phone : JsString) (online : Bool)
    (provider : Nat → JsString → Option JsError)
    (h : ∀ f, otpService.signupFormatPhone phone = some f →
      otpService.isValidFormattedPhoneNumber f = false) :
    otpService.sendPhoneOTPForSignup online provider phone =
      ⟨JsResult.err ⟨js "Error", otpService.invalidPhoneMsg⟩, [], []⟩ := by
  have hatt : otpService.sendPhoneOTPForSignupAttempt online provider phone 0 =
      (JsResult.err ⟨js "Error", otpService.invalidPhoneMsg⟩, []) := by
    cases hf : otpService.signupFormatPhone phone with
    | none =>
      simp [otpService.sendPhoneOTPForSignupAttempt, hf, phoneSignupMapError_invalidPhone]
    | some f =>
      simp [otpService.sendPhoneOTPForSignupAttempt, hf, h f hf,
        phoneSignupMapError_invalidPhone]
  exact retryRun_stops_on_nonNetwork _ _ [] hatt invalidPhoneMsg_not_network

/-- C3 witness: the amended statement at the concrete rejected inputs
`12345` and `abcdefghij`. -/
theorem C3_witness :
    otpService.sendPhoneOTPForSignup true (fun _ _ => none) (js "12345") =
      ⟨JsResult.err ⟨js "Error", otpService.invalidPhoneMsg⟩, [], []⟩ ∧
    otpService.sendPhoneOTPForSignup false
        (fun _ _ => some ⟨js "Error", js "x"⟩) (js "abcdefghij") =
      ⟨JsResult.err ⟨js "Error", otpService.invalidPhoneMsg⟩, [], []⟩ :=
  ⟨C3_theorem (js "12345") true (fun _ _ => none)
      (fun f hf => Option.noConfusion
        ((show otpService.signupFormatPhone (js "12345") = none by decide).symm.trans hf)),
    C3_theorem (js "abcdefghij") false (fun _ _ => some ⟨js "Error", js "x"⟩)
      (fun f hf => Option.noConfusion
        ((show otpService.signupFormatPhone (js "abcdefghij") = none by decide).symm.trans hf))⟩

/-- C5: for every 10-digit input matching `[6-9]\d{9}`, the signup-path
phone normalization yields `+91` followed by the input, and it is
idempotent: applied to the already-normalized `+91`-form it returns it
unchanged. -/
theorem C5_theorem (m : JsString) (h : isMobile10 m = true) :
    otpService.signupFormatPhone m = some (js "+91" ++ m) ∧
    otpService.signupFormatPhone (js "+91" ++ m) = some (js "+91" ++ m) := by
  have h' := h
  simp only [isMobile10, Bool.and_eq_true, beq_iff_eq] at h'
  obtain ⟨⟨hlen, hstart⟩, hdig⟩ := h'
  rw [List.all_eq_true] at hdig
  have hfil : m.filter Char.isDigit = m := List.filter_eq_self.mpr hdig
  constructor
  · simp [otpService.signupFormatPhone, hfil, hlen, hstart]
  · have hc : js "+91" ++ m = '+' :: '9' :: '1' :: m := rfl
    rw [hc]
    have hfil2 : ('+' :: '9' :: '1' :: m).filter Char.isDigit = '9' :: '1' :: m := by
      simp [List.filter, hfil]
    simp [otpService.signupFormatPhone, hfil2, hlen, js, List.isPrefixOf]

/-- C5 witness: the normalization property at the concrete mobile number
`7877059117`. -/
theorem C5_witness :
    isMobile10 (js "7877059117") = true ∧
    otpService.signupFormatPhone (js "7877059117") = some (js "+91" ++ js "7877059117") ∧
    otpService.signupFormatPhone (js "+91" ++ js "7877059117") =
      some (js "+91" ++ js "7877059117") :=
  ⟨by decide, (C5_theorem (js "7877059117") (by decide)).1,
    (C5_theorem (js "7877059117") (by decide)).2⟩

/-- C6: when OTP verification succeeds (returning a user) and every one of
the 3 reconciliation upsert attempts fails, but the final user fetch
succeeds, the component still completes: the staged data is cleared, no
error toast is raised, and the exhausted reconciliation error is only
logged. -/
theorem C6_theorem (otp uid d : JsString) (updErr : Option JsError)
    (upsErr : Nat → Option JsError) (e1 e2 e3 : JsError)
    (hlen : otp.length = 6)
    (h1 : upsErr 1 = some e1) (h2 : upsErr 2 = some e2) (h3 : upsErr 3 = some e3) :
    OTPVerification.verifyOTP otp (JsResult.ok (some uid)) updErr upsErr (some d, none) =
      { verifyCalls := 1, completeSignupCalled := true, tempCleared := true
        completed := true, errorToast := none, loggedProfileError := some e3
        localRejected := false } := by
  have hne : otp.isEmpty = false := by
    cases otp with
    | nil => simp at hlen
    | cons c t => rfl
  have hloop : authService.profileUpsertLoop upsErr 1 3 = some e3 := by
    show authService.profileUpsertLoop upsErr 1 (Nat.succ 2) = some e3
    rw [authService.profileUpsertLoop, h1]
    show authService.profileUpsertLoop upsErr 2 (Nat.succ 1) = some e3
    rw [authService.profileUpsertLoop, h2]
    show authService.profileUpsertLoop upsErr 3 (Nat.succ 0) = some e3
    rw [authService.profileUpsertLoop, h3]
    rfl
  simp [OTPVerification.verifyOTP, hne, hlen, authService.completeSignupAfterOTP, hloop]

/-- C6 witness: the soft-failure completion at a concrete all-failing
upsert oracle. -/
theorem C6_witness :
    OTPVerification.verifyOTP (js "123456") (JsResult.ok (some (js "user-1"))) none
        (fun _ => some ⟨js "Error", js "db down"⟩) (some (js "blob"), none) =
      { verifyCalls := 1, completeSignupCalled := true, tempCleared := true
        completed := true, errorToast := none
        loggedProfileError := some ⟨js "Error", js "db down"⟩
        localRejected := false } :=
  C6_theorem (js "123456") (js "user-1") (js "blob") none
    (fun _ => some ⟨js "Error", js "db down"⟩)
    ⟨js "Error", js "db down"⟩ ⟨js "Error", js "db down"⟩ ⟨js "Error", js "db down"⟩
    (by decide) rfl rfl rfl

/-- C7: a code whose length is not 6 is rejected by the component's local
precheck: no verify network call is made, nothing downstream runs, and the
handler exits on the local toast. -/
theorem C7_theorem (otp : JsString) (vr : JsResult (Option JsString))
    (updErr : Option JsError) (upsErr : Nat → Option JsError)
    (gu : Option JsString × Option JsError) (h : otp.length ≠ 6) :
    OTPVerification.verifyOTP otp vr updErr upsErr gu =
      { verifyCalls := 0, completeSignupCalled := false, tempCleared := false
        completed := false, errorToast := none, loggedProfileError := none
        localRejected := true } := by
  simp [OTPVerification.verifyOTP, h]

/-- C7 witness: the local rejection at the concrete 5-digit code `12345`. -/
theorem C7_witness :
    OTPVerification.verifyOTP (js "12345") (JsResult.ok none) none (fun _ => none)
        (none, none) =
      { verifyCalls := 0, completeSignupCalled := false, tempCleared := false
        completed := false, errorToast := none, loggedProfileError := none
        localRejected := true } :=
  C7_theorem (js "12345") (JsResult.ok none) none (fun _ => none) (none, none)
    (by decide)

/-- C8: with a locally valid form, every negative product lookup — no
matching active row in the table (covering both a missing product and an
inactive one) or a failed query — makes the submission surface the one
opaque invalid-product message, stage nothing, and not advance to OTP
verification. -/
theorem C8_theorem (f : Signup.SignupFormData) (db : List Product) (e : JsError)
    (hform : Signup.validateForm f = [])
    (hneg : ∀ p ∈ db, p.id = f.productId → p.is_active = false) :
    Signup.handleSubmit f (productQuerySingle db f.productId) =
      ⟨some Signup.invalidProductMsg, none, false⟩ ∧
    Signup.handleSubmit f (none, some e) =
      ⟨some Signup.invalidProductMsg, none, false⟩ := by
  have hfilter : db.filter (fun p => p.id == f.productId && p.is_active) = [] := by
    rw [List.filter_eq_nil_iff]
    intro p hp
    simp only [Bool.and_eq_true, beq_iff_eq, not_and]
    intro hid
    rw [hneg p hp hid]
    simp
  constructor
  · simp [Signup.handleSubmit, hform, productQuerySingle, hfilter,
      authService.validateProductId]
  · simp [Signup.handleSubmit, hform, authService.validateProductId]

/-- C8 witness: the opaque failure at a concrete valid form whose product
id exists but is inactive, and at a concrete query error. -/
theorem C8_witness :
    Signup.handleSubmit
        ⟨js "DEMO-001", js "Alice", js "7877059117", js "a@b.co", js "secret1", js "secret1"⟩
        (productQuerySingle [⟨js "DEMO-001", false⟩] (js "DEMO-001")) =
      ⟨some Signup.invalidProductMsg, none, false⟩ ∧
    Signup.handleSubmit
        ⟨js "DEMO-001", js "Alice", js "7877059117", js "a@b.co", js "secret1", js "secret1"⟩
        (none, some ⟨js "Error", js "boom"⟩) =
      ⟨some Signup.invalidProductMsg, none, false⟩ :=
  C8_theorem
    ⟨js "DEMO-001", js "Alice", js "7877059117", js "a@b.co", js "secret1", js "secret1"⟩
    [⟨js "DEMO-001", false⟩] ⟨js "Error", js "boom"⟩ (by decide) (by decide)

/-- C9: an accepted login input containing `@` is routed to the email
password path unchanged, and an accepted input without `@` is routed to
the phone password path, `+91`-prefixed exactly when it has no leading
`+`. -/
theorem C9_theorem (input pw : JsString) (_hv : Login.validateInput input pw = true) :
    (input.contains '@' = true →
      Login.handleSubmitPayload input pw = authService.SignInPayload.email input pw) ∧
    (input.contains '@' = false → startsWithPlus input = false →
      Login.handleSubmitPayload input pw =
        authService.SignInPayload.phone (js "+91" ++ input) pw) ∧
    (input.contains '@' = false → startsWithPlus input = true →
      Login.handleSubmitPayload input pw =
        authService.SignInPayload.phone input pw) := by
  refine ⟨?_, ?_, ?_⟩
  · intro hat
    have hmem : '@' ∈ input := by simpa using hat
    simp [Login.handleSubmitPayload, Login.formattedInput, authService.signInPayload, hmem]
  · intro hat hplus
    have hmem : '@' ∉ input := by simpa using hat
    have hfmt : Login.formattedInput input = js "+91" ++ input := by
      simp [Login.formattedInput, hmem, hplus]
    have hmem2 : '@' ∉ js "+91" ++ input := by
      simp [js, List.mem_append, hmem]
    show authService.signInPayload ⟨Login.formattedInput input, pw⟩ = _
    rw [hfmt]
    simp [authService.signInPayload, hmem2, hmem, js, startsWithPlus]
  · intro hat hplus
    have hmem : '@' ∉ input := by simpa using hat
    simp [Login.handleSubmitPayload, Login.formattedInput, authService.signInPayload,
      hmem, hplus]

/-- C9 witness: the routing at the concrete scenario inputs `user@x.com`
and `7877059117`. -/
theorem C9_witness :
    Login.handleSubmitPayload (js "user@x.com") (js "secret1") =
      authService.SignInPayload.email (js "user@x.com") (js "secret1") ∧
    Login.handleSubmitPayload (js "7877059117") (js "secret1") =
      authService.SignInPayload.phone (js "+917877059117") (js "secret1") :=
  ⟨(C9_theorem (js "user@x.com") (js "secret1") (by decide)).1 (by decide),
    (C9_theorem (js "7877059117") (js "secret1") (by decide)).2.1 (by decide) (by decide)⟩

/-- C10: reading the staged slot is total at the interface: an absent
slot yields JS null; a slot whose content fails JSON parsing yields JS
null (the thrown syntax error is caught); and a successful parse returns
the completely parsed value — never a partial one, since `jsonParse`
succeeds only by consuming the whole slot content. -/
theorem C10_theorem (slot : Option JsString) :
    (slot = none → authService.getTempUserData slot = Json.null) ∧
    (∀ s, slot = some s → jsonParse s = none →
      authService.getTempUserData slot = Json.null) ∧
    (∀ s v, slot = some s → s.isEmpty = false → jsonParse s = some v →
      authService.getTempUserData slot = v) := by
  refine ⟨?_, ?_, ?_⟩
  · intro h
    rw [h]
    rfl
  · intro s hs hparse
    rw [hs]
    by_cases he : s.isEmpty = true
    · simp [authService.getTempUserData, he]
    · simp at he
      simp [authService.getTempUserData, he, hparse]
  · intro s v hs he hparse
    rw [hs]
    simp [authService.getTempUserData, he, hparse]

/-- C10 witness: the characterization at an absent slot, a slot holding
broken JSON, and a slot holding a completely parsed value. -/
theorem C10_witness :
    authService.getTempUserData none = Json.null ∧
    authService.getTempUserData (some (js "not valid json")) = Json.null ∧
    authService.getTempUserData (some (js "[1, 2]")) =
      Json.arr [Json.num (js "1"), Json.num (js "2")] :=
  ⟨(C10_theorem none).1 rfl,
    (C10_theorem (some (js "not valid json"))).2.1 (js "not valid json") rfl (by rfl),
    (C10_theorem (some (js "[1, 2]"))).2.2 (js "[1, 2]")
      (Json.arr [Json.num (js "1"), Json.num (js "2")]) rfl rfl (by rfl)⟩
